import Mathlib

/-!
Shallow embedding of `scrape_malaysiakini.py` (the single script of the
repository) and proofs about the claims of its specification.

Modelling conventions:
* Python strings are Lean `String`s; `str.lower()` is `lower`, the
  substring test `needle in hay` is `pyIn`, and `s.startswith(p)` is
  `startswith s p`, all defined below over the character lists.
* Network and HTML parsing are external collaborators.  A run of the
  scraper is parameterised by an oracle `String → Except String (List Anchor)`
  giving, per section name, either the anchors extracted from the fetched
  page (`requests.get` + `raise_for_status` + `BeautifulSoup.find_all`
  succeeded) or the exception message the attempt raised.
* `datetime.now()` is modelled as a fixed string parameter `now` of the run
  (the clock is a collaborator; no claim depends on the timestamps).
* `time.sleep` calls and console printing are not modelled (no claim is
  about real time or logging text).
-/

namespace Malaysiakini

/-- Embeds Python `str.lower()` (`Char.toLower` per character; all inputs
here are ASCII). -/
def lower (s : String) : String :=
  ⟨s.data.map Char.toLower⟩

/-- Embeds the Python substring test `needle in hay`. -/
def pyIn (needle hay : String) : Bool :=
  decide (needle.data <:+: hay.data)

/-- Embeds Python `s.startswith(p)`. -/
def startswith (s p : String) : Bool :=
  decide (p.data <+: s.data)

/-- The keyword list defined at the top of `scrape_malaysiakini.py`
(lines 8-25): mental-health related terms followed by LGBT+ related
terms. -/
def keywords : List String := [
  -- Mental health related
  "mental health", "mental", "mentally", "behavioural", "emotional",
  "psychiatry", "psychiatric", "psychiatrist", "psychology", "psychological",
  "psychologist", "counselling", "counseling", "counsellor", "counselor",
  "therapy", "therapist", "therapeutic", "psychotherapy", "psychotherapeutic",
  "psychotherapists", "depression", "depressed", "suicide", "suicidal",
  "anxiety", "anxious", "stress", "stressed", "trauma", "traumatised",
  "traumatized", "self-harm", "stigma", "resilience", "discriminate",
  "discrimination", "discriminated",
  -- LGBT+ related
  "lgbt", "lgbtq", "lgbtqia", "lgbtq+", "lgbtqia+", "lesbian", "gay",
  "homosexual", "homosexuality", "bisexual", "bisexuality", "transgender",
  "transwoman", "transwomen", "transman", "transmen", "trans", "transsexual",
  "transvestite", "non-binary", "nonbinary", "queer", "intersex", "sogie",
  "sogiesc", "sex", "sexual", "sexuality", "gender", "masculine",
  "masculinity", "feminine", "femininity"]

/-- Embeds `base_url = "https://www.malaysiakini.com"` (line 31). -/
def base_url : String := "https://www.malaysiakini.com"

/-- Embeds `sections = ['news', 'columns', 'letters']` (line 39). -/
def sections : List String := ["news", "columns", "letters"]

/-- Embeds the keyword scan of line 70-71:
`title_lower = title.lower()`;
`matching_keywords = [kw for kw in keywords if kw.lower() in title_lower]`. -/
def matching_keywords (kws : List String) (title : String) : List String :=
  kws.filter (fun kw => pyIn (lower kw) (lower title))

/-- An anchor element as returned by the collaborator
`soup.find_all('a', href=True)` (line 55): `href` is the link attribute
(`article.get('href')`, line 59) and `text` the already-stripped anchor
text (`article.get_text(strip=True)`, line 64). -/
structure Anchor where
  href : String
  text : String
deriving DecidableEq, Repr

/-- The result dict built at lines 75-81.  The dict key `'section'` is a
reserved word in Lean and is rendered as the field `sect`;
`matching_keywords` holds the joined string `', '.join(matching_keywords)`
and `date_scraped` the formatted `datetime.now()`. -/
structure Result where
  title : String
  url : String
  sect : String
  matching_keywords : String
  date_scraped : String
deriving DecidableEq, Repr

/-- Embeds the body of the per-anchor loop, lines 58-82: skip anchors whose
link is falsy or does not start with `/news/`; resolve `full_link`; skip
falsy or short titles; scan the title against the keyword list; build a
result dict only when `matching_keywords` is non-empty.  `now` stands for
the `datetime.now()` timestamp string. -/
def process_anchor (kws : List String) (now sect : String) (a : Anchor) :
    Option Result :=
  let link := a.href
  if link = "" ∨ ¬ startswith link "/news/" then none
  else
    let full_link := if startswith link "/" then base_url ++ link else link
    let title := a.text
    if title = "" ∨ title.length < 10 then none
    else
      let mks := matching_keywords kws title
      if mks.isEmpty then none
      else some { title := title, url := full_link, sect := sect,
                  matching_keywords := String.intercalate ", " mks,
                  date_scraped := now }

/-- The records appended for one section page, lines 57-82: the anchors of
the page are processed in order and each anchor independently contributes
at most one result. -/
def processSection (kws : List String) (now sect : String)
    (anchors : List Anchor) : List Result :=
  anchors.filterMap (process_anchor kws now sect)

/-- Embeds `scrape_malaysiakini` (lines 27-96).  For each section the body
of the `try` (fetch + parse + anchor loop) either succeeds, contributing
that section's records to `results`, or raises, in which case the
`except Exception` handler at line 90 logs and the loop moves on to the
next section; `results` is returned at line 96.  The `oracle` gives each
section's fetched anchor list or the raised exception's message.  The
source's `max_pages` parameter is unused in the body and is omitted. -/
def scrape_malaysiakini (kws : List String) (now : String)
    (oracle : String → Except String (List Anchor)) : List Result :=
  (sections.map (fun sect =>
    match oracle sect with
    | Except.error _ => []
    | Except.ok anchors => processSection kws now sect anchors)).flatten

/-- Embeds `fieldnames = ['title', 'url', 'section', 'matching_keywords',
'date_scraped']` (line 143). -/
def fieldnames : List String :=
  ["title", "url", "section", "matching_keywords", "date_scraped"]

/-- The row the `csv.DictWriter` writes for one result dict, in
`fieldnames` order (lines 143-147). -/
def result_row (r : Result) : List String :=
  [r.title, r.url, r.sect, r.matching_keywords, r.date_scraped]

/-- Embeds `save_to_csv` (lines 134-149): `if not results: return` writes
nothing (`none`, no file is created); otherwise the CSV file is written,
a header row of the `fieldnames` followed by one row per result.  Rows are
modelled as field lists; the comma-serialisation of a row is the `csv`
module collaborator. -/
def save_to_csv (results : List Result) : Option (List (List String)) :=
  if results.isEmpty then none
  else some (fieldnames :: results.map result_row)

/-- An HTTP response as seen by the `requests` collaborator: a status code
and a body. -/
structure HttpResp where
  status : Nat
  body : String
deriving DecidableEq, Repr

/-- Embeds the fetch of a section page, lines 49-50:
`response = requests.get(url, headers=headers, timeout=10)` followed by
`response.raise_for_status()`.  The oracle `attempts` gives, for each
attempt index, the outcome the network would return to a GET of the URL;
the code issues exactly one GET, so only `attempts 0` is consulted.
`raise_for_status` raises `HTTPError` exactly when the status is an error
status (`400 ≤ status`); there is no retry loop, no backoff and no special
handling of 404. -/
def fetch (attempts : Nat → Except String HttpResp) : Except String HttpResp :=
  match attempts 0 with
  | Except.error e => Except.error e
  | Except.ok r =>
      if 400 ≤ r.status then Except.error ("HTTPError " ++ toString r.status)
      else Except.ok r

/-- The spec's article-path convention, following the spec's words: the
path `/news/<numeric-id>`, i.e. the `/news/` prefix followed by a numeric
article-id segment.  Stated here only to compare the claimed filter with
the one the code implements. -/
def numericNewsLink (link : String) : Bool :=
  startswith link "/news/" &&
    (let seg := (link.data.drop 6).takeWhile (fun c => c ≠ '/')
     !seg.isEmpty && seg.all Char.isDigit)

/-- A concrete section oracle whose news page contains the same qualifying
anchor twice; the other sections are empty. -/
def dupOracle : String → Except String (List Anchor) := fun sect =>
  if sect = "news" then
    Except.ok [⟨"/news/123", "depression awareness week starts"⟩,
               ⟨"/news/123", "depression awareness week starts"⟩]
  else Except.ok []

/-- Alphabetical (lexicographic, by code point) comparison of character
lists, used only to state the spec's "sorted alphabetically". -/
def alphaLeL : List Char → List Char → Bool
  | [], _ => true
  | _ :: _, [] => false
  | a :: as, b :: bs =>
    if a.toNat < b.toNat then true
    else if b.toNat < a.toNat then false
    else alphaLeL as bs

/-- The spec's "sorted alphabetically", following the spec's words: each
element alphabetically at most its successor. -/
def sortedAlpha : List String → Bool
  | [] => true
  | [_] => true
  | a :: b :: rest => alphaLeL a.data b.data && sortedAlpha (b :: rest)

/-- The keyword list of the source contains no duplicate term. -/
theorem keywords_nodup : keywords.Nodup := by decide

/-- C1, counterexample.  The claim states that matching the text
"this is sexist" does not report the term "sex"; the code's matcher
(line 71) is a plain case-insensitive substring test, and on the title
"this is sexist" it reports exactly `["sex"]`, because "sex" occurs inside
"sexist". -/
theorem sex_reported_in_sexist :
    matching_keywords keywords "this is sexist" = ["sex"] := by decide

/-- C1, amended.  Keyword matching is case-insensitive substring
containment, not whole-word: a vocabulary term is reported exactly when
its lower-cased form occurs as a contiguous substring of the lower-cased
text, regardless of adjoining word characters; in particular
"this is sexist" does report "sex". -/
theorem matching_keywords_substring (kws : List String) (t kw : String) :
    kw ∈ matching_keywords kws t ↔
      kw ∈ kws ∧ (lower kw).data <:+: (lower t).data := by
  simp [matching_keywords, List.mem_filter, pyIn]

/-- C2, counterexample.  The claim states the matched-keyword list is
sorted alphabetically for every text; for the text "mental health" the
code produces `["mental health", "mental"]`, in vocabulary order, and
"mental health" does not alphabetically precede "mental". -/
theorem matches_not_alphabetical :
    matching_keywords keywords "mental health" = ["mental health", "mental"] ∧
    sortedAlpha (matching_keywords keywords "mental health") = false := by
  decide

/-- C2, amended.  For every input text the matched-keyword list is a
sublist of the vocabulary (so it is in vocabulary order, not alphabetical
order) and contains no duplicate term, the vocabulary itself having
none. -/
theorem matching_keywords_order_nodup (t : String) :
    List.Sublist (matching_keywords keywords t) keywords ∧
    (matching_keywords keywords t).Nodup :=
  ⟨List.filter_sublist keywords, keywords_nodup.filter _⟩

/-- C3, counterexample.  The claim states that a non-404 failure is
retried up to 3 attempts with backoff and that a 404 returns a distinct
NotFound outcome.  The code issues a single GET per section page: when the
first attempt raises a connection error it returns that error even though
a second attempt would have returned status 200, and a 404 response is an
ordinary `HTTPError` raised by `raise_for_status`, not a distinguished
NotFound. -/
theorem fetch_no_retry :
    fetch (fun n => if n = 0 then Except.error "ConnectionError"
                    else Except.ok ⟨200, "body"⟩) =
      Except.error "ConnectionError" ∧
    fetch (fun _ => Except.ok ⟨404, "not found"⟩) =
      Except.error "HTTPError 404" :=
  ⟨rfl, rfl⟩

/-- C3, amended.  Fetching a URL performs exactly one attempt, with no
retry, no backoff and no separate NotFound outcome: the result depends
only on the first attempt, and it is a success exactly when that attempt
returns a response whose status is below 400 (`raise_for_status` raises
for every error status, 404 included); any failure is an exception that
propagates to the per-section handler. -/
theorem fetch_single_attempt (o : Nat → Except String HttpResp) :
    fetch o = fetch (fun _ => o 0) ∧
    ((∃ r, fetch o = Except.ok r) ↔
      ∃ r, o 0 = Except.ok r ∧ r.status < 400) := by
  refine ⟨rfl, ?_⟩
  cases h : o 0 with
  | error e => simp [fetch, h]
  | ok r =>
      by_cases hs : 400 ≤ r.status
      · simp [fetch, h, hs]
      · simp [fetch, h, hs]
        omega

/-- C4, counterexample.  The claim states that the same resolved absolute
URL never reaches two result records.  The code keeps no seen-URL set:
with a news page listing the same qualifying anchor twice, the run
produces two records carrying the identical URL. -/
theorem dup_url_two_records :
    (scrape_malaysiakini keywords "2026-01-01 00:00:00" dupOracle).map
      (fun r => r.url) =
      ["https://www.malaysiakini.com/news/123",
       "https://www.malaysiakini.com/news/123"] := by decide

/-- C4, amended.  No deduplication is performed: anchors are processed
independently with no state shared between them, so every qualifying
anchor contributes its own record and a URL yielded twice by the source
appears in two records. -/
theorem processSection_no_dedup (k : List String) (d s : String)
    (l1 l2 : List Anchor) :
    processSection k d s (l1 ++ l2) =
      processSection k d s l1 ++ processSection k d s l2 :=
  List.filterMap_append l1 l2 _

/-- C5.  `save_to_csv` writes a file exactly when the run produced at
least one record: an empty record list writes nothing (no file at all),
and a non-empty list writes one file holding the header row followed by
one row per record. -/
theorem save_to_csv_iff_nonempty (r : Result) (rs : List Result) :
    save_to_csv [] = none ∧
    save_to_csv (r :: rs) = some (fieldnames :: (r :: rs).map result_row) :=
  ⟨rfl, rfl⟩

/-- C6, counterexample.  The claim states a record can be produced only
when the link path is `/news/` followed by a numeric article-id segment.
The code checks only `link.startswith('/news/')`: the link
`/news/not-a-number`, which fails the numeric convention, still produces
a record. -/
theorem nonnumeric_link_matched :
    numericNewsLink "/news/not-a-number" = false ∧
    processSection keywords "2026-01-01 00:00:00" "news"
        [⟨"/news/not-a-number", "depression awareness week"⟩] =
      [⟨"depression awareness week",
        "https://www.malaysiakini.com/news/not-a-number", "news",
        "depression", "2026-01-01 00:00:00"⟩] := by decide

/-- C6, amended.  The section-page strategy keeps a link only when it
starts with the literal prefix `/news/`; nothing requires the following
segment to be numeric. -/
theorem link_filter_prefix_only (k : List String) (d s : String)
    (a : Anchor) :
    process_anchor k d s a = none ∨ startswith a.href "/news/" = true := by
  by_cases hb : startswith a.href "/news/" = true
  · exact Or.inr hb
  · exact Or.inl (by simp [process_anchor, hb])

/-- C7, counterexample.  The claim states the summary columns are, in
order: URL, title, published-date, matched keywords, text file path.  The
header the code writes puts the title first and the URL second, has a
section column, has no text-file-path column at all, and its date column
is the scrape timestamp, not a published date. -/
theorem summary_header_counterexample :
    save_to_csv [⟨"T title", "U url", "news", "depression", "D date"⟩] =
      some [["title", "url", "section", "matching_keywords", "date_scraped"],
            ["T title", "U url", "news", "depression", "D date"]] ∧
    fieldnames.head? ≠ some "url" := by decide

/-- C7, amended.  The summary file written for a non-empty run is
comma-separated with the fixed column order: title, URL, section, joined
matched keywords, scrape timestamp — in that order for every row. -/
theorem summary_columns (r : Result) (rs : List Result) :
    save_to_csv (r :: rs) =
      some (["title", "url", "section", "matching_keywords", "date_scraped"] ::
        (r :: rs).map (fun x =>
          [x.title, x.url, x.sect, x.matching_keywords, x.date_scraped])) :=
  rfl

/-- C8.  A section whose fetch or parse raises is skipped and contributes
nothing, while the run continues and still returns the records
accumulated from every other section: the run with a failing section
equals the run in which that section simply yields no anchors.  (Inside
the per-anchor loop no operation can raise — the loop body is pure string
processing — so per-candidate errors reduce to section-level ones, all
caught by the handler at line 90.) -/
theorem section_error_skipped (k : List String) (d sect : String)
    (o : String → Except String (List Anchor)) (e : String)
    (h : o sect = Except.error e) :
    scrape_malaysiakini k d o =
      scrape_malaysiakini k d
        (fun t => if t = sect then Except.ok [] else o t) := by
  unfold scrape_malaysiakini
  congr 1
  refine List.map_congr_left ?_
  intro s _
  by_cases hs : s = sect
  · subst hs
    rw [h]
    simp [processSection]
  · simp [hs]

/-- A concrete oracle whose columns section raises while the news section
yields anchors. -/
def errOracle : String → Except String (List Anchor) := fun sect =>
  if sect = "columns" then Except.error "boom" else dupOracle sect

/-- Witness for `section_error_skipped` at a concrete run with a failing
columns section. -/
theorem section_error_skipped_witness :
    scrape_malaysiakini keywords "2026-01-01 00:00:00" errOracle =
      scrape_malaysiakini keywords "2026-01-01 00:00:00"
        (fun t => if t = "columns" then Except.ok [] else errOracle t) :=
  section_error_skipped keywords "2026-01-01 00:00:00" "columns" errOracle
    "boom" rfl

/-- C9.  For a candidate that passed the link filter and the title filter,
a result record is appended exactly when its matched-keyword list is
non-empty; in particular every record carries at least one matched
keyword, and a candidate with no match produces no record. -/
theorem record_iff_nonempty_match (k : List String) (d s : String)
    (a : Anchor) (h1 : startswith a.href "/news/" = true)
    (h2 : ¬ a.text.length < 10) :
    (process_anchor k d s a).isSome = true ↔
      matching_keywords k a.text ≠ [] := by
  have h0 : a.href ≠ "" := by
    intro e
    rw [e] at h1
    exact absurd h1 (by decide)
  have ht : a.text ≠ "" := by
    intro e
    apply h2
    rw [e]
    decide
  by_cases hm : matching_keywords k a.text = []
  · simp [process_anchor, h0, h1, h2, ht, hm]
  · simp [process_anchor, h0, h1, h2, ht, hm]

/-- Witness for `record_iff_nonempty_match` at a concrete qualifying
anchor. -/
theorem record_iff_nonempty_match_witness :
    (process_anchor keywords "2026-01-01 00:00:00" "news"
        ⟨"/news/123", "depression awareness week starts"⟩).isSome = true ↔
      matching_keywords keywords "depression awareness week starts" ≠ [] :=
  record_iff_nonempty_match keywords "2026-01-01 00:00:00" "news"
    ⟨"/news/123", "depression awareness week starts"⟩ (by decide) (by decide)

/-- A link accepted by the `/news/` filter in particular starts with a
slash, so the code's `full_link` resolution takes the concatenation
branch. -/
theorem startswith_news_slash (s : String)
    (h : startswith s "/news/" = true) : startswith s "/" = true := by
  unfold startswith at *
  rw [decide_eq_true_iff] at *
  exact List.IsPrefix.trans (by decide) h

/-- A produced record's anchor passed the `/news/` filter and its URL is
the base URL concatenated with the anchor's link. -/
theorem process_anchor_some_url (k : List String) (d s : String)
    (a : Anchor) (r : Result) (h : process_anchor k d s a = some r) :
    startswith a.href "/news/" = true ∧ r.url = base_url ++ a.href := by
  simp only [process_anchor] at h
  split at h
  · exact absurd h (by simp)
  · next hcond =>
      push_neg at hcond
      obtain ⟨h0, hp⟩ := hcond
      refine ⟨hp, ?_⟩
      split at h
      · exact absurd h (by simp)
      · split at h
        · exact absurd h (by simp)
        · rw [Option.some_inj] at h
          rw [← h]
          simp [startswith_news_slash a.href hp]

/-- C10.  Every record a run produces has an absolute URL rooted at the
publisher's origin: its url field is the fixed base URL concatenated with
a link starting with `/news/`. -/
theorem record_url_absolute (d : String)
    (o : String → Except String (List Anchor)) (r : Result)
    (h : r ∈ scrape_malaysiakini keywords d o) :
    ∃ link, startswith link "/news/" = true ∧ r.url = base_url ++ link := by
  unfold scrape_malaysiakini at h
  rw [List.mem_flatten] at h
  obtain ⟨l, hl, hrl⟩ := h
  rw [List.mem_map] at hl
  obtain ⟨sect, _, rfl⟩ := hl
  cases ho : o sect with
  | error e =>
      rw [ho] at hrl
      exact absurd hrl (by simp)
  | ok anchors =>
      rw [ho] at hrl
      simp only [processSection, List.mem_filterMap] at hrl
      obtain ⟨a, _, ha⟩ := hrl
      obtain ⟨hp, hurl⟩ := process_anchor_some_url keywords d sect a r ha
      exact ⟨a.href, hp, hurl⟩

/-- The first record the `dupOracle` run produces. -/
def dupRecord : Result :=
  ⟨"depression awareness week starts",
   "https://www.malaysiakini.com/news/123", "news", "depression",
   "2026-01-01 00:00:00"⟩

/-- Witness for `record_url_absolute` at a concrete run and record. -/
theorem record_url_absolute_witness :
    ∃ link, startswith link "/news/" = true ∧
      dupRecord.url = base_url ++ link :=
  record_url_absolute "2026-01-01 00:00:00" dupOracle dupRecord (by decide)

end Malaysiakini
